import Mathlib

/-!
# PIPOU-STORE: file-backed article store, verified model

Shallow embedding of the PIPOU-STORE express servers
(`src/server.js` is the current root server; `src/data/server.js` and
`src/uploads/PIPOU/server.js` are the older variants kept in the repo,
`src/unnamed/part_000` / `part_001` further revisions of the root one).

Modelling conventions:
* A JSON backing file is abstracted by its parse status: `absent`
  (`fs.readFile` rejects), `empty` (the file holds the empty string, on
  which `JSON.parse` throws but `data || '[]'` substitutes `'[]'`),
  `corrupt` (non-empty content on which `JSON.parse` throws), or
  `valid l` (content parsing to the array `l`). Every successful write
  stores `JSON.stringify` output, hence yields a `valid` state.
* `parseInt(req.params.id)` is modelled as `Option Int`: `none` is the
  `NaN` outcome, and `NaN === x` is `false` for every `x`.
* An express session is its single `authenticated` boolean.
* HTTP statuses are plain naturals (200, 201, 400, 401, 404, 500).
-/

namespace PipouStore

/-- The non-`id` fields of an article body, as accepted by the
validated routes of `src/server.js` (`nom`, `prix`, `description`,
`categorie`). The store itself treats them opaquely. -/
structure Attrs where
  nom : String
  prix : Rat
  descr : Option String
  categorie : String
deriving DecidableEq, Repr

/-- One stored article: the integer `id` assigned at creation
(`Date.now()`) plus the attribute bag. -/
structure Article where
  id : Int
  attrs : Attrs
deriving DecidableEq, Repr

/-- Parse status of the articles backing file (see module docstring). -/
inductive FileState where
  | absent
  | empty
  | corrupt
  | valid (articles : List Article)
deriving DecidableEq, Repr

/-- An express session, reduced to its `authenticated` flag. -/
structure Session where
  authenticated : Bool
deriving DecidableEq, Repr

/-- `requireLogin` middleware test (`src/server.js` line 105):
`req.session.authenticated`. -/
def requireLogin (s : Session) : Bool :=
  s.authenticated

/-- `a.id === id` where `id = parseInt(req.params.id)`: a `NaN` id
(`none`) compares unequal to everything. -/
def matchesId : Option Int → Int → Bool
  | none, _ => false
  | some i, aid => aid == i

/-- The express-validator chain on article routes:
`nom` non-empty string, `prix > 0`, `categorie` non-empty string
(`description` optional, no constraint beyond being a string). -/
def validAttrs (a : Attrs) : Bool :=
  a.nom != "" && 0 < a.prix && a.categorie != ""

/-- The tolerant read used by `POST /articles`: `try { data = await
fs.readFile(...); articles = JSON.parse(data) } catch (_) {}` leaves
`articles = []` when the file is absent or unparsable. -/
def readTolerant : FileState → List Article
  | .absent => []
  | .empty => []
  | .corrupt => []
  | .valid l => l

/-- The read phase of `POST /articles` (`src/server.js` lines 162-166),
split out so that interleavings of concurrent creates can be stated. -/
def createRead (fs : FileState) : List Article :=
  readTolerant fs

/-- The write phase of `POST /articles` (lines 160-169): push
`{...body, id: now}` and overwrite the whole file. -/
def createWrite (articles : List Article) (body : Attrs) (now : Int) : FileState :=
  .valid (articles ++ [⟨now, body⟩])

/-- `POST /articles` of `src/server.js` (lines 149-180): auth gate,
body validation, tolerant read, append with `id = Date.now()`, whole
file overwrite, 201. -/
def createArticle (sess : Session) (body : Attrs) (now : Int) (fs : FileState) :
    Nat × FileState :=
  if requireLogin sess = false then (401, fs)
  else if validAttrs body = false then (400, fs)
  else (201, createWrite (createRead fs) body now)

/-- `PUT /articles/:id` of `src/server.js` (lines 183-217): auth gate,
body validation, strict read (500 when the file is absent or does not
parse), `findIndex(a => a.id === id)`, 404 when `-1`, else
`articles[index] = { ...req.body, id }` and whole file overwrite. -/
def updateArticle (sess : Session) (idParam : Option Int) (body : Attrs)
    (fs : FileState) : Nat × FileState :=
  if requireLogin sess = false then (401, fs)
  else if validAttrs body = false then (400, fs)
  else match fs with
    | .absent => (500, fs)
    | .empty => (500, fs)
    | .corrupt => (500, fs)
    | .valid articles =>
      match articles.findIdx? (fun a => matchesId idParam a.id) with
      | none => (404, .valid articles)
      | some index =>
        match idParam with
        | none => (404, .valid articles)
        | some i => (200, .valid (articles.set index ⟨i, body⟩))

/-- `DELETE /articles/:id` of `src/server.js` (lines 220-241): auth
gate, strict read (500 on absent/unparsable), `filter(a => a.id !== id)`,
404 when the length is unchanged, else whole file overwrite. -/
def deleteArticle (sess : Session) (idParam : Option Int) (fs : FileState) :
    Nat × FileState :=
  if requireLogin sess = false then (401, fs)
  else match fs with
    | .absent => (500, fs)
    | .empty => (500, fs)
    | .corrupt => (500, fs)
    | .valid articles =>
      let newArticles := articles.filter (fun a => !(matchesId idParam a.id))
      if newArticles.length = articles.length then (404, .valid articles)
      else (200, .valid newArticles)

/-- The single background-setting document (`fond.json`): an object
with a `background` field. -/
structure SettingDoc where
  background : String
deriving DecidableEq, Repr

/-- Parse status of the setting backing file. -/
inductive FondFile where
  | absent
  | empty
  | corrupt
  | valid (doc : SettingDoc)
deriving DecidableEq, Repr

/-- The default served when `fond.json` is missing or unparsable. -/
def defaultFond : SettingDoc :=
  ⟨"#f2f2f2"⟩

/-- `POST /fond` of `src/server.js` (lines 246-255): auth gate, then
write `req.body` verbatim over the file. -/
def writeFond (sess : Session) (body : SettingDoc) (ff : FondFile) :
    Nat × FondFile :=
  if requireLogin sess = false then (401, ff)
  else (200, .valid body)

/-- `POST /upload-fond` of `src/server.js` (lines 258-270): the
`requireLogin` gate runs before multer, so an unauthenticated request
stores no blob; with a stored file of name `f`, `fond.json` is
overwritten with `{background: url(/fonds/f)}`. The blob directory is
the list of stored filenames. -/
def uploadFond (sess : Session) (file : Option String) (ff : FondFile)
    (blobs : List String) : Nat × FondFile × List String :=
  if requireLogin sess = false then (401, ff, blobs)
  else match file with
    | none => (400, ff, blobs)
    | some f => (200, .valid ⟨"url(/fonds/" ++ f ++ ")"⟩, blobs ++ [f])

/-- `POST /login` of `src/server.js` (lines 124-137): `if (!password)`
is the JavaScript falsiness test, taken by a missing field and by the
empty string; a match sets `req.session.authenticated = true`. -/
def login (password : Option String) (admin : String) (sess : Session) :
    Nat × Session :=
  match password with
  | none => (400, sess)
  | some p =>
    if p = "" then (400, sess)
    else if p = admin then (200, { sess with authenticated := true })
    else (401, sess)

/-! ## The `src/data/server.js` variant

Its `requireLogin` redirects to `login.html` instead of answering 401,
its `GET /articles.json` answers 500 when `fs.readFile` errors and lets
`JSON.parse` throw out of the callback on unparsable content, and its
`DELETE /articles/:id` distinguishes a read error from corrupt content
(`'Fichier articles corrompu'`). -/

/-- Outcome of `GET /articles.json` in `src/data/server.js`
(lines 108-113). `parseThrow` is the uncaught `JSON.parse` exception
escaping the `fs.readFile` callback. -/
inductive ListResult where
  | redirectLogin
  | readError
  | parseThrow
  | ok (articles : List Article)
deriving DecidableEq, Repr

/-- `GET /articles.json` of `src/data/server.js` (lines 108-113):
`if (err) return res.status(500)...; res.json(JSON.parse(data || '[]'))`.
An absent file is a read error; an empty file becomes `'[]'`; any other
unparsable content makes `JSON.parse` throw. -/
def dataListArticles (sess : Session) (fs : FileState) : ListResult :=
  if requireLogin sess = false then .redirectLogin
  else match fs with
    | .absent => .readError
    | .empty => .ok []
    | .corrupt => .parseThrow
    | .valid l => .ok l

/-- `GET /articles.json` of `src/unnamed/part_000` (lines 144-153): one
`try` around read and `JSON.parse(data || '[]')`, `catch` answering 500.
Absent and corrupt both land in the catch; the empty file parses as `[]`. -/
def p0ListArticles (sess : Session) (fs : FileState) : ListResult :=
  if requireLogin sess = false then .redirectLogin
  else match fs with
    | .absent => .readError
    | .empty => .ok []
    | .corrupt => .readError
    | .valid l => .ok l

/-- Outcome of `DELETE /articles/:id` in `src/data/server.js`. -/
inductive DataDeleteResult where
  | redirectLogin
  | readError
  | storageCorrupt
  | notFound
  | ok
deriving DecidableEq, Repr

/-- `DELETE /articles/:id` of `src/data/server.js` (lines 153-175):
read error → 500 `'Erreur lecture'`; `JSON.parse` failure (empty or
corrupt content) → 500 `'Fichier articles corrompu'`; unchanged filter
length → 404; else overwrite with the filtered list. -/
def dataDeleteArticle (sess : Session) (idParam : Option Int) (fs : FileState) :
    DataDeleteResult × FileState :=
  if requireLogin sess = false then (.redirectLogin, fs)
  else match fs with
    | .absent => (.readError, fs)
    | .empty => (.storageCorrupt, fs)
    | .corrupt => (.storageCorrupt, fs)
    | .valid articles =>
      let newArticles := articles.filter (fun a => !(matchesId idParam a.id))
      if newArticles.length = articles.length then (.notFound, .valid articles)
      else (.ok, .valid newArticles)

/-- Outcome of `GET /fond`. -/
inductive FondResult where
  | redirectLogin
  | ok (doc : SettingDoc)
deriving DecidableEq, Repr

/-- `GET /fond` of `src/data/server.js` (lines 178-187): a read error
answers the default document, a parse failure is caught and answers the
default document, otherwise the stored document is served. It never
fails. -/
def dataReadFond (sess : Session) (ff : FondFile) : FondResult :=
  if requireLogin sess = false then .redirectLogin
  else match ff with
    | .absent => .ok defaultFond
    | .empty => .ok defaultFond
    | .corrupt => .ok defaultFond
    | .valid d => .ok d

/-! ## The `src/uploads/PIPOU/server.js` variant

The oldest revision: its article and fond routes carry no
`requireLogin` middleware at all (only `admin.html` is protected), its
`POST /articles` performs no validation and assigns no id (it pushes
`req.body` verbatim). -/

/-- `POST /articles` of `src/uploads/PIPOU/server.js` (lines 63-81):
no auth gate, no validation, no id assignment; tolerant read, push
`req.body`, whole file overwrite, 201. The session is accepted and
ignored. -/
def pipouCreateArticle (_sess : Session) (body : Article) (fs : FileState) :
    Nat × FileState :=
  (201, .valid (readTolerant fs ++ [body]))

/-! ## Concrete sample data used by witnesses and counterexamples -/

/-- A body accepted by the validators (`nom:"Tee"`, `prix:10`,
`categorie:"Shirts"`). -/
def sampleAttrs : Attrs :=
  ⟨"Tee", 10, none, "Shirts"⟩

/-- A second accepted body, distinct from `sampleAttrs`. -/
def sampleAttrs2 : Attrs :=
  ⟨"Cap", 12, some "casquette", "Hats"⟩

/-- Number of records the articles file holds (0 when it is not a
parsable array). -/
def fileLen : FileState → Nat
  | .valid l => l.length
  | _ => 0

/-! ## Theorems for the specification claims -/

/-- Claim C1, counterexample: `POST /articles` of
`src/uploads/PIPOU/server.js` carries no auth gate, so a session whose
`authenticated` flag is `false` creates an article anyway — the result
is 201, not 401, and the backing file changes. -/
theorem unauth_pipou_create_mutates :
    pipouCreateArticle ⟨false⟩ ⟨1, sampleAttrs⟩ FileState.absent
      = (201, FileState.valid [⟨1, sampleAttrs⟩])
    ∧ (201 : Nat) ≠ 401
    ∧ FileState.valid [⟨1, sampleAttrs⟩] ≠ FileState.absent := by
  decide

/-- Claim C1, amended: in the root server `src/server.js`, every
mutating operation (article create, update, delete, setting write,
blob upload) invoked on a session whose `authenticated` flag is not
`true` answers 401 and leaves the backing files and the blob directory
unchanged; the legacy `src/uploads/PIPOU/server.js` variant leaves its
mutating routes ungated. -/
theorem auth_gate_root_server (sess : Session) (h : sess.authenticated ≠ true) :
    (∀ b t fs, createArticle sess b t fs = (401, fs))
    ∧ (∀ p b fs, updateArticle sess p b fs = (401, fs))
    ∧ (∀ p fs, deleteArticle sess p fs = (401, fs))
    ∧ (∀ d ff, writeFond sess d ff = (401, ff))
    ∧ (∀ f ff blobs, uploadFond sess f ff blobs = (401, ff, blobs)) := by
  have hb : sess.authenticated = false := by simpa using h
  refine ⟨?_, ?_, ?_, ?_, ?_⟩
  · intro b t fs; simp [createArticle, requireLogin, hb]
  · intro p b fs; simp [updateArticle, requireLogin, hb]
  · intro p fs; simp [deleteArticle, requireLogin, hb]
  · intro d ff; simp [writeFond, requireLogin, hb]
  · intro f ff blobs; simp [uploadFond, requireLogin, hb]

/-- Witness for `auth_gate_root_server` at the concrete unauthenticated
session. -/
theorem auth_gate_root_server_witness :
    (Session.mk false).authenticated ≠ true
    ∧ createArticle ⟨false⟩ sampleAttrs 1 FileState.absent = (401, FileState.absent)
    ∧ updateArticle ⟨false⟩ (some 1) sampleAttrs (.valid []) = (401, .valid [])
    ∧ deleteArticle ⟨false⟩ (some 1) (.valid []) = (401, .valid [])
    ∧ writeFond ⟨false⟩ defaultFond FondFile.absent = (401, FondFile.absent)
    ∧ uploadFond ⟨false⟩ (some "img") FondFile.absent [] = (401, FondFile.absent, []) := by
  have h := auth_gate_root_server ⟨false⟩ (by decide)
  exact ⟨by decide, h.1 _ _ _, h.2.1 _ _ _, h.2.2.1 _ _, h.2.2.2.1 _ _,
    h.2.2.2.2 _ _ _⟩

/-- Claim C4, counterexample: the list endpoints do not degrade to an
empty sequence. `GET /articles.json` of `src/data/server.js` answers a
500 read error on an absent file and lets `JSON.parse` throw on invalid
JSON; the `src/unnamed/part_000` revision answers 500 in both cases. -/
theorem list_corruption_counterexample :
    dataListArticles ⟨true⟩ FileState.absent = ListResult.readError
    ∧ dataListArticles ⟨true⟩ FileState.corrupt = ListResult.parseThrow
    ∧ p0ListArticles ⟨true⟩ FileState.absent = ListResult.readError
    ∧ p0ListArticles ⟨true⟩ FileState.corrupt = ListResult.readError
    ∧ ListResult.readError ≠ ListResult.ok []
    ∧ ListResult.parseThrow ≠ ListResult.ok [] := by
  decide

/-- Claim C4, amended: `list()` returns the stored records when the
backing file parses (an empty file is read as the empty array via
`data || '[]'`); when the file is absent it fails with a read error,
and when it holds invalid JSON the parse failure surfaces
(`src/data/server.js`: uncaught throw; `src/unnamed/part_000`: 500)
instead of degrading to an empty sequence. -/
theorem list_articles_amended :
    (∀ l, dataListArticles ⟨true⟩ (.valid l) = .ok l)
    ∧ dataListArticles ⟨true⟩ .empty = .ok []
    ∧ dataListArticles ⟨true⟩ .absent = .readError
    ∧ dataListArticles ⟨true⟩ .corrupt = .parseThrow
    ∧ (∀ l, p0ListArticles ⟨true⟩ (.valid l) = .ok l)
    ∧ p0ListArticles ⟨true⟩ .empty = .ok []
    ∧ p0ListArticles ⟨true⟩ .absent = .readError
    ∧ p0ListArticles ⟨true⟩ .corrupt = .readError := by
  exact ⟨fun l => rfl, rfl, rfl, rfl, fun l => rfl, rfl, rfl, rfl⟩

/-- Claim C6 (code_bug): the source serializes nothing. Splitting
`POST /articles` into its read and write phases, the interleaving
read₁ · read₂ · write₁ · write₂ of two creates against an absent store
makes both reads observe the empty list, the second write clobbers the
first, and the final file holds one record instead of two; the
serialized schedule keeps both. -/
theorem lost_update_unguarded_creates :
    createRead FileState.absent = []
    ∧ createWrite (createRead FileState.absent) sampleAttrs 1
        = FileState.valid [⟨1, sampleAttrs⟩]
    ∧ createWrite (createRead FileState.absent) sampleAttrs2 2
        = FileState.valid [⟨2, sampleAttrs2⟩]
    ∧ fileLen (createWrite (createRead FileState.absent) sampleAttrs2 2) = 1
    ∧ (createArticle ⟨true⟩ sampleAttrs2 2
        ((createArticle ⟨true⟩ sampleAttrs 1 FileState.absent).2)).2
        = FileState.valid [⟨1, sampleAttrs⟩, ⟨2, sampleAttrs2⟩]
    ∧ fileLen ((createArticle ⟨true⟩ sampleAttrs2 2
        ((createArticle ⟨true⟩ sampleAttrs 1 FileState.absent).2)).2) = 2 := by
  decide

/-- Claim C7: `DELETE /articles/:id` of `src/data/server.js` on a file
that exists but is not valid JSON answers the dedicated corruption
error (`'Fichier articles corrompu'`) and writes nothing, whereas the
tolerant read used by the create path treats the same state as an empty
list. -/
theorem delete_corrupt_surfaces_error :
    (∀ p, dataDeleteArticle ⟨true⟩ p FileState.corrupt
      = (DataDeleteResult.storageCorrupt, FileState.corrupt))
    ∧ readTolerant FileState.corrupt = [] := by
  exact ⟨fun p => rfl, rfl⟩

/-- Claim C8: `GET /fond` of `src/data/server.js` always succeeds on an
authenticated session — it serves the stored document when the file
parses and the default `{background: "#f2f2f2"}` when the file is
missing, empty or unparsable. -/
theorem fond_read_total :
    (∀ ff, ∃ d, dataReadFond ⟨true⟩ ff = .ok d)
    ∧ (∀ d, dataReadFond ⟨true⟩ (.valid d) = .ok d)
    ∧ dataReadFond ⟨true⟩ .absent = .ok defaultFond
    ∧ dataReadFond ⟨true⟩ .empty = .ok defaultFond
    ∧ dataReadFond ⟨true⟩ .corrupt = .ok defaultFond
    ∧ defaultFond = ⟨"#f2f2f2"⟩ := by
  refine ⟨fun ff => ?_, fun d => rfl, rfl, rfl, rfl, rfl⟩
  cases ff <;> exact ⟨_, rfl⟩

/-- Claim C9, counterexample: a supplied empty-string password differs
from the admin secret, yet `POST /login` answers 400 (the JavaScript
`!password` test is true on `""`), not the 401 the claim requires for
every supplied mismatched password. -/
theorem login_empty_password_counterexample :
    some "" ≠ (none : Option String)
    ∧ "" ≠ "secret"
    ∧ login (some "") "secret" ⟨false⟩ = (400, ⟨false⟩)
    ∧ (login (some "") "secret" ⟨false⟩).1 ≠ 401 := by
  decide

/-- Claim C9, amended: `POST /login` answers 400 when the password
field is missing or the empty string; when the supplied non-empty
password equals the admin secret it answers 200 and sets the session's
`authenticated` flag; otherwise it answers 401 and leaves the session
unchanged. -/
theorem login_cases (admin : String) (sess : Session) :
    login none admin sess = (400, sess)
    ∧ login (some "") admin sess = (400, sess)
    ∧ (∀ p, p ≠ "" → p = admin → login (some p) admin sess = (200, ⟨true⟩))
    ∧ (∀ p, p ≠ "" → p ≠ admin → login (some p) admin sess = (401, sess)) := by
  refine ⟨rfl, rfl, ?_, ?_⟩
  · intro p hne heq
    subst heq
    simp [login, hne]
  · intro p hne hnea
    simp [login, hne, hnea]

/-- Witness for `login_cases` at a concrete secret, a correct and a
wrong password. -/
theorem login_cases_witness :
    login (some "pipou123") "pipou123" ⟨false⟩ = (200, ⟨true⟩)
    ∧ login (some "wrong") "pipou123" ⟨false⟩ = (401, ⟨false⟩) := by
  have h := login_cases "pipou123" ⟨false⟩
  exact ⟨h.2.2.1 _ (by decide) rfl, h.2.2.2 _ (by decide) (by decide)⟩

/-- Replacing the record at a position whose stored id is `i` by
`⟨i, b⟩` leaves the list of ids unchanged. -/
theorem map_id_set (l : List Article) (k : Nat) (i : Int) (b : Attrs)
    (hk : k < l.length) (h : (l.get ⟨k, hk⟩).id = i) :
    (l.set k ⟨i, b⟩).map Article.id = l.map Article.id := by
  apply List.ext_getElem
  · simp
  · intro n h1 h2
    simp only [List.getElem_map]
    by_cases hn : n = k
    · subst hn
      simp only [List.getElem_set_self]
      exact h.symm
    · simp [List.getElem_set_ne (Ne.symm hn)]

/-- Claim C2: `PUT /articles/:id` of `src/server.js` on a valid body
answers 404 and writes nothing when no stored record carries the id;
when the first record with the id sits between `pre` and `post`, it is
replaced wholesale by `⟨id, attrs⟩` (full replace of the non-id fields,
id preserved, rest of the list untouched), the whole list is persisted,
and a subsequent read of that id returns exactly the new attributes
with the original id. -/
theorem update_replace_semantics (articles : List Article) (i : Int) (b : Attrs)
    (hb : validAttrs b = true) :
    ((∀ a ∈ articles, a.id ≠ i) →
      updateArticle ⟨true⟩ (some i) b (.valid articles) = (404, .valid articles))
    ∧ (∀ pre a post, articles = pre ++ a :: post → a.id = i →
        (∀ x ∈ pre, x.id ≠ i) →
        updateArticle ⟨true⟩ (some i) b (.valid articles)
          = (200, .valid (pre ++ ⟨i, b⟩ :: post))
        ∧ (pre ++ ⟨i, b⟩ :: post).find? (fun x => x.id == i) = some ⟨i, b⟩) := by
  constructor
  · intro h
    have hf : articles.findIdx? (fun a => matchesId (some i) a.id) = none := by
      apply List.findIdx?_eq_none_iff.mpr
      intro x hx
      show (x.id == i) = false
      exact beq_eq_false_iff_ne.mpr (h x hx)
    simp [updateArticle, requireLogin, hb, hf]
  · intro pre a post heq ha hpre
    subst heq
    have hprenone : pre.findIdx? (fun x => matchesId (some i) x.id) = none := by
      apply List.findIdx?_eq_none_iff.mpr
      intro x hx
      show (x.id == i) = false
      exact beq_eq_false_iff_ne.mpr (hpre x hx)
    have hfind : (pre ++ a :: post).findIdx? (fun x => matchesId (some i) x.id)
        = some pre.length := by
      rw [List.findIdx?_append, hprenone]
      have hcons : (a :: post).findIdx? (fun x => matchesId (some i) x.id) = some 0 := by
        rw [List.findIdx?_cons]
        simp [matchesId, ha]
      rw [hcons]
      simp
    have hset : (pre ++ a :: post).set pre.length ⟨i, b⟩ = pre ++ ⟨i, b⟩ :: post := by
      rw [List.set_append_right _ _ (Nat.le_refl _)]
      simp
    constructor
    · simp [updateArticle, requireLogin, hb, hfind, hset]
    · rw [List.find?_append]
      have h1 : pre.find? (fun x => x.id == i) = none :=
        List.find?_eq_none.mpr (fun x hx => by simpa using hpre x hx)
      rw [h1]
      simp

/-- Witness for `update_replace_semantics`: a hit replaces the record
in full, a miss answers 404 without a write. -/
theorem update_replace_semantics_witness :
    updateArticle ⟨true⟩ (some 5) sampleAttrs (.valid [⟨5, sampleAttrs2⟩])
      = (200, .valid [⟨5, sampleAttrs⟩])
    ∧ updateArticle ⟨true⟩ (some 9) sampleAttrs (.valid [⟨5, sampleAttrs2⟩])
      = (404, .valid [⟨5, sampleAttrs2⟩]) := by
  have h5 := update_replace_semantics [⟨5, sampleAttrs2⟩] 5 sampleAttrs (by decide)
  have h9 := update_replace_semantics [⟨5, sampleAttrs2⟩] 9 sampleAttrs (by decide)
  constructor
  · have := (h5.2 [] ⟨5, sampleAttrs2⟩ [] rfl rfl (by simp)).1
    simpa using this
  · exact h9.1 (by decide)

/-- Claim C3: `DELETE /articles/:id` of `src/server.js` answers 404
and writes nothing when no stored record carries the id; otherwise it
persists the filtered list (every record with the id removed, the rest
kept in order) and answers 200, and a second delete of the same id on
the persisted list answers 404. -/
theorem delete_semantics (articles : List Article) (i : Int) :
    ((∀ a ∈ articles, a.id ≠ i) →
      deleteArticle ⟨true⟩ (some i) (.valid articles) = (404, .valid articles))
    ∧ ((∃ a ∈ articles, a.id = i) →
      ∃ l, deleteArticle ⟨true⟩ (some i) (.valid articles) = (200, .valid l)
        ∧ l = articles.filter (fun a => !(a.id == i))
        ∧ (∀ a ∈ l, a.id ≠ i)
        ∧ l.Sublist articles
        ∧ deleteArticle ⟨true⟩ (some i) (.valid l) = (404, .valid l)) := by
  have hfilter_self : ∀ l : List Article, (∀ a ∈ l, a.id ≠ i) →
      l.filter (fun a => !(matchesId (some i) a.id)) = l := by
    intro l h
    apply List.filter_eq_self.mpr
    intro a ha
    show (!(a.id == i)) = true
    rw [beq_eq_false_iff_ne.mpr (h a ha)]
    rfl
  have key : ∀ l : List Article, (∀ a ∈ l, a.id ≠ i) →
      deleteArticle ⟨true⟩ (some i) (.valid l) = (404, .valid l) := by
    intro l h
    simp [deleteArticle, requireLogin, hfilter_self l h]
  constructor
  · exact fun h => key articles h
  · intro hex
    obtain ⟨a, ha, hid⟩ := hex
    have hnomatch : ∀ x ∈ articles.filter (fun a => !(matchesId (some i) a.id)),
        x.id ≠ i := by
      intro x hx
      have := (List.mem_filter.mp hx).2
      simpa [matchesId] using this
    have hlen : ¬ ((articles.filter (fun a => !(matchesId (some i) a.id))).length
        = articles.length) := by
      intro hl
      have heqf := (List.filter_sublist (l := articles)
        (p := fun a => !(matchesId (some i) a.id))).eq_of_length hl
      have hmem : a ∈ articles.filter (fun a => !(matchesId (some i) a.id)) :=
        heqf.symm ▸ ha
      exact hnomatch a hmem hid
    refine ⟨articles.filter (fun a => !(matchesId (some i) a.id)), ?_, rfl,
      hnomatch, List.filter_sublist _, key _ hnomatch⟩
    simp [deleteArticle, requireLogin, hlen]

/-- Witness for `delete_semantics`: a miss answers 404, a hit removes
the record, and repeating the delete answers 404. -/
theorem delete_semantics_witness :
    deleteArticle ⟨true⟩ (some 9) (.valid [⟨7, sampleAttrs⟩])
      = (404, .valid [⟨7, sampleAttrs⟩])
    ∧ deleteArticle ⟨true⟩ (some 7) (.valid [⟨7, sampleAttrs⟩]) = (200, .valid [])
    ∧ deleteArticle ⟨true⟩ (some 7) (.valid []) = (404, .valid []) := by
  have h9 := delete_semantics [⟨7, sampleAttrs⟩] 9
  have h7 := delete_semantics [⟨7, sampleAttrs⟩] 7
  obtain ⟨l, hres, hl, -, -, hsecond⟩ := h7.2 ⟨⟨7, sampleAttrs⟩, by simp, rfl⟩
  subst hl
  exact ⟨h9.1 (by decide), by simpa using hres, by simpa using hsecond⟩

/-- Claim C10: a `NaN` id (the `parseInt` result on a non-numeric path
parameter) compares unequal to every stored id, so `PUT` and `DELETE`
on `src/server.js` answer 404 and leave the articles file unwritten. -/
theorem nan_id_yields_not_found (articles : List Article) (b : Attrs)
    (hb : validAttrs b = true) :
    updateArticle ⟨true⟩ none b (.valid articles) = (404, .valid articles)
    ∧ deleteArticle ⟨true⟩ none (.valid articles) = (404, .valid articles) := by
  have hf : articles.findIdx? (fun a => matchesId none a.id) = none :=
    List.findIdx?_eq_none_iff.mpr (fun x _ => rfl)
  have hfe : articles.filter (fun a => !(matchesId none a.id)) = articles :=
    List.filter_eq_self.mpr (fun a _ => rfl)
  constructor
  · simp [updateArticle, requireLogin, hb, hf]
  · simp [deleteArticle, requireLogin, hfe]

/-- Witness for `nan_id_yields_not_found` on a one-record store. -/
theorem nan_id_yields_not_found_witness :
    updateArticle ⟨true⟩ none sampleAttrs (.valid [⟨3, sampleAttrs2⟩])
      = (404, .valid [⟨3, sampleAttrs2⟩])
    ∧ deleteArticle ⟨true⟩ none (.valid [⟨3, sampleAttrs2⟩])
      = (404, .valid [⟨3, sampleAttrs2⟩]) := by
  have h := nan_id_yields_not_found [⟨3, sampleAttrs2⟩] sampleAttrs (by decide)
  exact ⟨h.1, h.2⟩

/-- The articles file holds pairwise-distinct ids (vacuously true when
it is not a parsable array). -/
def idsNodup : FileState → Prop
  | .valid l => (l.map Article.id).Nodup
  | _ => True

/-- A sequence of authenticated creates, each with its `Date.now()`
timestamp, folded over the store. -/
def createMany (jobs : List (Int × Attrs)) (fs : FileState) : FileState :=
  jobs.foldl (fun s jb => (createArticle ⟨true⟩ jb.2 jb.1 s).2) fs

/-- A run of authenticated, validated creates appends one record per
job, in order, carrying the job's timestamp as id. -/
theorem createMany_valid (jobs : List (Int × Attrs)) (l : List Article)
    (hv : ∀ jb ∈ jobs, validAttrs jb.2 = true) :
    createMany jobs (.valid l)
      = .valid (l ++ jobs.map (fun jb => ⟨jb.1, jb.2⟩)) := by
  induction jobs generalizing l with
  | nil => simp [createMany]
  | cons jb jobs ih =>
    have hj : validAttrs jb.2 = true := hv jb (List.mem_cons_self _ _)
    have hrest : ∀ x ∈ jobs, validAttrs x.2 = true :=
      fun x hx => hv x (List.mem_cons_of_mem _ hx)
    have hstep : (createArticle ⟨true⟩ jb.2 jb.1 (.valid l)).2
        = .valid (l ++ [⟨jb.1, jb.2⟩]) := by
      simp [createArticle, requireLogin, hj, createWrite, createRead, readTolerant]
    calc createMany (jb :: jobs) (.valid l)
        = createMany jobs ((createArticle ⟨true⟩ jb.2 jb.1 (.valid l)).2) := rfl
      _ = createMany jobs (.valid (l ++ [⟨jb.1, jb.2⟩])) := by rw [hstep]
      _ = .valid ((l ++ [⟨jb.1, jb.2⟩]) ++ jobs.map (fun jb => ⟨jb.1, jb.2⟩)) :=
          ih _ hrest
      _ = .valid (l ++ (jb :: jobs).map (fun jb => ⟨jb.1, jb.2⟩)) := by simp

/-- Claim C5, counterexample: a create whose `Date.now()` timestamp
already occurs as a stored id duplicates that id — the input collection
has pairwise-distinct ids, the output does not. -/
theorem duplicate_id_counterexample :
    (([⟨100, sampleAttrs2⟩] : List Article).map Article.id).Nodup
    ∧ createArticle ⟨true⟩ sampleAttrs 100 (.valid [⟨100, sampleAttrs2⟩])
        = (201, .valid [⟨100, sampleAttrs2⟩, ⟨100, sampleAttrs⟩])
    ∧ ¬ (([⟨100, sampleAttrs2⟩, ⟨100, sampleAttrs⟩] : List Article).map
        Article.id).Nodup := by
  refine ⟨by decide, by decide, by decide⟩

/-- Claim C5, amended: update and delete preserve pairwise-distinct
ids unconditionally; create preserves them only when its `Date.now()`
timestamp is not already a stored id (same-millisecond creations can
collide); and N creates with pairwise-distinct timestamps starting
from the empty collection yield exactly N records whose ids are the N
distinct timestamps. -/
theorem id_uniqueness_amended :
    (∀ sess p b fs, idsNodup fs → idsNodup (updateArticle sess p b fs).2)
    ∧ (∀ sess p fs, idsNodup fs → idsNodup (deleteArticle sess p fs).2)
    ∧ (∀ sess b t fs, idsNodup fs → t ∉ (readTolerant fs).map Article.id →
        idsNodup (createArticle sess b t fs).2)
    ∧ (∀ jobs : List (Int × Attrs), (jobs.map Prod.fst).Nodup →
        (∀ jb ∈ jobs, validAttrs jb.2 = true) →
        ∃ l, createMany jobs (.valid []) = .valid l
          ∧ l.length = jobs.length
          ∧ l.map Article.id = jobs.map Prod.fst
          ∧ (l.map Article.id).Nodup) := by
  refine ⟨?_, ?_, ?_, ?_⟩
  · intro sess p b fs h
    cases hg : requireLogin sess with
    | false => simpa [updateArticle, hg] using h
    | true =>
      cases hv : validAttrs b with
      | false => simpa [updateArticle, hg, hv] using h
      | true =>
        cases fs with
        | absent => simpa [updateArticle, hg, hv] using h
        | empty => simpa [updateArticle, hg, hv] using h
        | corrupt => simpa [updateArticle, hg, hv] using h
        | valid articles =>
          cases hfi : articles.findIdx? (fun a => matchesId p a.id) with
          | none => simpa [updateArticle, hg, hv, hfi] using h
          | some k =>
            cases p with
            | none => simpa [updateArticle, hg, hv, hfi] using h
            | some i =>
              obtain ⟨hk, hpk, -⟩ := List.findIdx?_eq_some_iff_getElem.mp hfi
              have hid : (articles.get ⟨k, hk⟩).id = i := by
                simpa [matchesId] using hpk
              have hred : (updateArticle sess (some i) b (.valid articles)).2
                  = .valid (articles.set k ⟨i, b⟩) := by
                simp [updateArticle, hg, hv, hfi]
              rw [hred]
              show ((articles.set k ⟨i, b⟩).map Article.id).Nodup
              rw [map_id_set articles k i b hk hid]
              exact h
  · intro sess p fs h
    cases hg : requireLogin sess with
    | false => simpa [deleteArticle, hg] using h
    | true =>
      cases fs with
      | absent => simpa [deleteArticle, hg] using h
      | empty => simpa [deleteArticle, hg] using h
      | corrupt => simpa [deleteArticle, hg] using h
      | valid articles =>
        by_cases hl : (articles.filter (fun a => !(matchesId p a.id))).length
            = articles.length
        · simpa [deleteArticle, hg, hl] using h
        · have hred : (deleteArticle sess p (.valid articles)).2
              = .valid (articles.filter (fun a => !(matchesId p a.id))) := by
            simp [deleteArticle, hg, hl]
          rw [hred]
          show ((articles.filter (fun a => !(matchesId p a.id))).map
            Article.id).Nodup
          exact List.Nodup.sublist
            (List.Sublist.map Article.id (List.filter_sublist articles)) h
  · intro sess b t fs h ht
    cases hg : requireLogin sess with
    | false => simpa [createArticle, hg] using h
    | true =>
      cases hv : validAttrs b with
      | false => simpa [createArticle, hg, hv] using h
      | true =>
        have hred : (createArticle sess b t fs).2
            = .valid (readTolerant fs ++ [⟨t, b⟩]) := by
          simp [createArticle, hg, hv, createWrite, createRead]
        rw [hred]
        show ((readTolerant fs ++ [(⟨t, b⟩ : Article)]).map Article.id).Nodup
        rw [List.map_append, List.nodup_append]
        refine ⟨?_, by simp, ?_⟩
        · cases fs with
          | absent => simp [readTolerant]
          | empty => simp [readTolerant]
          | corrupt => simp [readTolerant]
          | valid l => exact h
        · intro x hx hx'
          have hxt : x = t := by simpa using hx'
          subst hxt
          exact ht hx
  · intro jobs hnd hv
    have hmap : (jobs.map (fun jb : Int × Attrs => (⟨jb.1, jb.2⟩ : Article))).map
        Article.id = jobs.map Prod.fst := by
      simp [List.map_map]
    exact ⟨jobs.map (fun jb => (⟨jb.1, jb.2⟩ : Article)),
      by simpa using createMany_valid jobs [] hv, by simp, hmap, hmap ▸ hnd⟩

/-- Witness for `id_uniqueness_amended`: a one-record store, one
update, one delete, one fresh-timestamp create, and a two-create run
with distinct timestamps. -/
theorem id_uniqueness_amended_witness :
    idsNodup (FileState.valid [⟨1, sampleAttrs⟩])
    ∧ idsNodup (updateArticle ⟨true⟩ (some 1) sampleAttrs2
        (.valid [⟨1, sampleAttrs⟩])).2
    ∧ idsNodup (deleteArticle ⟨true⟩ (some 1) (.valid [⟨1, sampleAttrs⟩])).2
    ∧ idsNodup (createArticle ⟨true⟩ sampleAttrs2 2 (.valid [⟨1, sampleAttrs⟩])).2
    ∧ ∃ l, createMany [(1, sampleAttrs), (2, sampleAttrs2)] (.valid []) = .valid l
        ∧ l.length = 2 ∧ l.map Article.id = [1, 2]
        ∧ (l.map Article.id).Nodup := by
  have h := id_uniqueness_amended
  have h1 : idsNodup (FileState.valid [⟨1, sampleAttrs⟩]) := by
    show (([⟨1, sampleAttrs⟩] : List Article).map Article.id).Nodup
    decide
  have hfresh : (2 : Int) ∉ (readTolerant (.valid [⟨1, sampleAttrs⟩])).map
      Article.id := by decide
  obtain ⟨l, hcm, hlen, hm, hnd⟩ :=
    h.2.2.2 [(1, sampleAttrs), (2, sampleAttrs2)] (by decide) (by decide)
  exact ⟨h1, h.1 _ _ _ _ h1, h.2.1 _ _ _ h1, h.2.2.1 _ _ _ _ h1 hfresh,
    l, hcm, hlen, hm, hnd⟩

end PipouStore
